import Mathlib

/-!
Verification of the restaurant-booking orchestration core
(agent_state.py, agent_nodes.py, agent_graph.py).

The step functions, routers and engine helpers are embedded as pure Lean
functions.  Calls to external collaborators (language model, booking
provider, availability provider, voice provider) are modelled by passing
the collaborator's structured result in as an explicit argument of type
Except String _, where the error constructor stands for a raised
exception or malformed output.  Python dictionaries holding a fixed key
set are modelled as structures; Python list mutation is modelled by
functional update, with object identity tracked through list positions
where aliasing matters (ranking).  Python truthiness on optional strings
and numbers is modelled explicitly.
-/

/-- Conversation entry: one (role, content) pair. -/
structure Message where
  role : String
  content : String
deriving Repr, DecidableEq

/-- Classification result (UserIntent in agent_state.py); carried, never
inspected by the orchestration core itself. -/
structure UserIntent where
  intent : String
  confidence : Rat
  missing_params : List String
  reasoning : Option String
deriving Repr, DecidableEq

/-- ReservationParams from agent_state.py: every field independently
optional, travel_mode defaulting to "walking". -/
structure ReservationParams where
  query : Option String := none
  location : Option String := none
  radius : Option Nat := none
  price_level : Option Nat := none
  extras : Option String := none
  max_travel_time : Option Nat := none
  travel_mode : Option String := some "walking"
  date : Option String := none
  time : Option String := none
  num_people : Option Nat := none
  user_preferences : Option String := none
deriving Repr, DecidableEq

/-- RestaurantCandidate from agent_state.py. -/
structure RestaurantCandidate where
  place_id : String
  name : String
  address : String
  rating : Option Rat := none
  user_ratings_total : Option Nat := none
  price_level : Option Nat := none
  phone : Option String := none
  website : Option String := none
  opening_hours : Option String := none
  has_api_booking : Bool := false
  available : Option Bool := none
  available_times : Option (List String) := none
  agent_score : Option Rat := none
  score_reasoning : Option String := none
deriving Repr, DecidableEq

/-- SearchResults from agent_state.py. -/
structure SearchResults where
  restaurants : List RestaurantCandidate
  total_found : Nat
  search_params_used : Option String := none
deriving Repr, DecidableEq

/-- Booking confirmation as written into state["booking_confirmation"]:
either the provider's opaque confirmation_details dict (API channel) or
the dict literally built by fallback_voice_node, whose "method" key is
"voice" -- the voice channel is the second constructor. -/
inductive BookingConfirmation where
  | apiDetails (details : String)
  | voiceConf (restaurant : String) (date : Option String) (time : Option String)
      (num_people : Option Nat) (phone : Option String) (transcript : String)
deriving Repr, DecidableEq

/-- AgentState from agent_state.py: the shared state threaded through
every node of the graph. -/
structure AgentState where
  messages : List Message
  current_step : String
  iteration_count : Nat
  needs_user_input : Bool
  user_intent : Option UserIntent
  reservation_params : Option ReservationParams
  search_results : Option SearchResults
  top_3_restaurants : Option (List RestaurantCandidate)
  selected_restaurant : Option RestaurantCandidate
  booking_status : Option String
  booking_confirmation : Option BookingConfirmation
  voice_call_transcript : Option String
  error : Option String
  agent_thoughts : List String
  agent_actions : List String
  agent_observations : List String
deriving Repr, DecidableEq

/-- Python truthiness of an optional string: None and "" are falsy. -/
def pyTruthyStr : Option String → Bool
  | none => false
  | some s => s != ""

/-- Python truthiness of an optional number: None and 0 are falsy. -/
def pyTruthyNat : Option Nat → Bool
  | none => false
  | some n => n != 0

/-- create_initial_state from agent_state.py. -/
def create_initial_state (user_message : String) : AgentState where
  messages := [⟨"user", user_message⟩]
  current_step := "classify_intent"
  iteration_count := 0
  needs_user_input := false
  user_intent := none
  reservation_params := none
  search_results := none
  top_3_restaurants := none
  selected_restaurant := none
  booking_status := none
  booking_confirmation := none
  voice_call_transcript := none
  error := none
  agent_thoughts := []
  agent_actions := []
  agent_observations := []

/-- is_state_complete_for_search from agent_state.py: query and location
are compared against None (not Python truthiness) here. -/
def is_state_complete_for_search (state : AgentState) : Bool :=
  match state.reservation_params with
  | none => false
  | some params => params.query.isSome && params.location.isSome

/-- get_missing_critical_params from agent_state.py: each critical field
is tested with Python truthiness (so None, "" and 0 all count as
missing), and a Spanish label is accumulated per missing field. -/
def get_missing_critical_params (state : AgentState) : List String :=
  match state.reservation_params with
  | none => ["query", "location", "date", "time", "num_people"]
  | some params =>
      (if pyTruthyStr params.query then [] else ["tipo de comida"]) ++
      (if pyTruthyStr params.location then [] else ["ubicación"]) ++
      (if pyTruthyStr params.date then [] else ["fecha"]) ++
      (if pyTruthyStr params.time then [] else ["hora"]) ++
      (if pyTruthyNat params.num_people then [] else ["número de personas"])

/-- check_completeness_node from agent_nodes.py: purely local decision,
no collaborator argument is even needed by the embedding. -/
def check_completeness_node (state : AgentState) : AgentState :=
  let can_search := is_state_complete_for_search state
  let missing := get_missing_critical_params state
  if can_search && missing.isEmpty then
    { state with
        current_step := "search"
        needs_user_input := false
        agent_thoughts := state.agent_thoughts ++
          ["THOUGHT: Tengo toda la información necesaria. Procedo a buscar restaurantes."] }
  else
    { state with
        current_step := "ask_user"
        needs_user_input := true
        agent_thoughts := state.agent_thoughts ++
          [s!"THOUGHT: Falta información crítica: {missing}. Debo preguntar al usuario."] }

/-- extract_parameters_node from agent_nodes.py.  The language-model
call plus JSON decoding is the llmOutput argument; Except.error stands
for a parse/validation failure.  On success the freshly built
ReservationParams object replaces the previous value wholesale -- the
previous parameters feed only the prompt, not the state update. -/
def extract_parameters_node (llmOutput : Except String ReservationParams)
    (state : AgentState) : AgentState :=
  match llmOutput with
  | Except.ok reservation_params =>
      { state with
          reservation_params := some reservation_params
          current_step := "check_completeness"
          agent_thoughts := state.agent_thoughts ++
            ["THOUGHT: Extraídos parámetros de la conversación."] }
  | Except.error e =>
      { state with
          error := some s!"Error extrayendo parámetros: {e}"
          current_step := "error" }

/-- ask_user_node from agent_nodes.py, with the generated question as
the collaborator output. -/
def ask_user_node (question : String) (state : AgentState) : AgentState :=
  { state with
      messages := state.messages ++ [⟨"assistant", question⟩]
      current_step := "waiting_user"
      agent_actions := state.agent_actions ++
        [s!"ACTION: Preguntar al usuario - {question}"] }

/-- route_after_completeness_check from agent_graph.py. -/
def route_after_completeness_check (state : AgentState) : String :=
  if pyTruthyStr state.error then "error"
  else if state.needs_user_input then "ask_user"
  else "search"

/-- route_after_booking from agent_graph.py. -/
def route_after_booking (state : AgentState) : String :=
  if pyTruthyStr state.error && state.booking_status == some "voice_failed" then "error"
  else if state.booking_status == some "api_success" then "finalize"
  else if state.booking_status == some "api_failed" then "fallback_voice"
  else "error"

/-- route_after_voice_fallback from agent_graph.py. -/
def route_after_voice_fallback (state : AgentState) : String :=
  if state.booking_status == some "voice_success" then "finalize"
  else "error"

/-- should_continue_or_end from agent_graph.py.  Note: it only returns a
label; it never mutates the state, and create_agent_graph never wires it
into the compiled graph. -/
def should_continue_or_end (state : AgentState) : String :=
  if 20 < state.iteration_count then "end"
  else if ["completed", "error", "waiting_user", "waiting_selection"].contains
      state.current_step then "end"
  else "continue"

/-- Character-level lowercasing (str.lower in Python). -/
def lowerChars (l : List Char) : List Char := l.map Char.toLower

/-- Character-level whitespace stripping at both ends (str.strip in
Python). -/
def trimChars (l : List Char) : List Char :=
  ((l.dropWhile Char.isWhitespace).reverse.dropWhile Char.isWhitespace).reverse

/-- message.lower().strip() from parse_restaurant_selection. -/
def pyLowerStrip (s : String) : String := String.mk (trimChars (lowerChars s.data))

/-- name.lower() used on candidate names. -/
def pyLower (s : String) : String := String.mk (lowerChars s.data)

/-- Leading-match test on character lists (needle starts the haystack). -/
def charsLeading : List Char → List Char → Bool
  | [], _ => true
  | _ :: _, [] => false
  | c :: cs, d :: ds => c == d && charsLeading cs ds

/-- Contiguous-occurrence test on character lists. -/
def charsWithin : List Char → List Char → Bool
  | needle, [] => charsLeading needle []
  | needle, d :: ds => charsLeading needle (d :: ds) || charsWithin needle ds

/-- Substring test used for "name in message" in Python. -/
def strContains (hay needle : String) : Bool :=
  charsWithin needle.data hay.data

/-- parse_restaurant_selection from agent_graph.py.  The Python indexing
top_3[k] raises IndexError when the list is too short; Except.error
models that escape. -/
def parse_restaurant_selection (message : String) (top_3 : List RestaurantCandidate) :
    Except String (Option RestaurantCandidate) :=
  let message_lower := pyLowerStrip message
  if ["1", "primero", "primer", "uno"].contains message_lower then
    match top_3.get? 0 with
    | some r => Except.ok (some r)
    | none => Except.error "IndexError"
  else if ["2", "segundo", "dos"].contains message_lower then
    match top_3.get? 1 with
    | some r => Except.ok (some r)
    | none => Except.error "IndexError"
  else if ["3", "tercero", "tres"].contains message_lower then
    match top_3.get? 2 with
    | some r => Except.ok (some r)
    | none => Except.error "IndexError"
  else
    Except.ok (top_3.find? (fun r => strContains message_lower (pyLower r.name)))

/-- Result dict of the availability provider (cover_manager.check_availability). -/
structure AvailabilityInfo where
  has_api_booking : Bool
  available : Option Bool
  available_times : Option (List String)
deriving Repr, DecidableEq

/-- Result dict of the booking provider (cover_manager.make_reservation). -/
structure BookingResult where
  success : Bool
  confirmation_details : String
  booking_id : String
  error : String
deriving Repr, DecidableEq

/-- Result dict of the voice provider (twilio_voice.make_voice_reservation). -/
structure VoiceCallResult where
  success : Bool
  confirmation : Bool
  transcript : String
  message : String
deriving Repr, DecidableEq

/-- One entry of the ranking collaborator's top_3 output array. -/
structure RankItem where
  place_id : String
  agent_score : Rat
  score_reasoning : String
deriving Repr, DecidableEq

/-- Per-candidate availability update from check_availability_node: the
per-candidate try/except marks a failing candidate as having no booking
channel and unknown availability, keeping its slot in the list. -/
def updateAvailability (avail : RestaurantCandidate → Except String AvailabilityInfo)
    (r : RestaurantCandidate) : RestaurantCandidate :=
  match avail r with
  | Except.ok a =>
      { r with
          has_api_booking := a.has_api_booking
          available := a.available
          available_times := a.available_times }
  | Except.error _ =>
      { r with has_api_booking := false, available := none }

/-- check_availability_node from agent_nodes.py, with the availability
provider passed as a per-candidate oracle. -/
def check_availability_node (avail : RestaurantCandidate → Except String AvailabilityInfo)
    (state : AgentState) : AgentState :=
  match state.search_results with
  | none =>
      { state with
          error := some "No hay resultados de búsqueda"
          current_step := "error" }
  | some sr =>
      let restaurants := sr.restaurants.map (updateAvailability avail)
      { state with
          search_results := some { sr with restaurants := restaurants }
          current_step := "rank"
          agent_thoughts := state.agent_thoughts ++
            ["OBSERVATION: Disponibilidad verificada en todos los restaurantes."] }

/-- Positional lookup in a list (Python indexing without the raise). -/
def listNth {α : Type} : List α → Nat → Option α
  | [], _ => none
  | x :: _, 0 => some x
  | _ :: xs, n + 1 => listNth xs n

/-- Positional overwrite in a list (Python in-place element mutation,
identity tracked by position). -/
def listUpdateAt {α : Type} : List α → Nat → α → List α
  | [], _, _ => []
  | _ :: xs, 0, y => y :: xs
  | x :: xs, n + 1, y => x :: listUpdateAt xs n y

/-- Index of the first list element satisfying a predicate. -/
def listFindIdx {α : Type} (p : α → Bool) : List α → Option Nat
  | [] => none
  | x :: xs => if p x then some 0 else (listFindIdx p xs).map (· + 1)

/-- Score assignment performed on a matched candidate object. -/
def setScore (item : RankItem) (r : RestaurantCandidate) : RestaurantCandidate :=
  { r with
      agent_score := some item.agent_score
      score_reasoning := some item.score_reasoning }

/-- Matching loop of rank_restaurants_node: for each ranked item, find
the candidate with that place_id, mutate its score fields in place, and
record its position.  Returns the (possibly partially) mutated candidate
list and, when every item matched, the list of matched positions; a
non-matching item makes the Python generator raise StopIteration, which
the caller's except clause turns into the fallback (second component
none). -/
def rankApply : List RestaurantCandidate → List RankItem →
    List RestaurantCandidate × Option (List Nat)
  | rs, [] => (rs, some [])
  | rs, item :: rest =>
    match listFindIdx (fun r => r.place_id == item.place_id) rs with
    | none => (rs, none)
    | some i =>
      match listNth rs i with
      | none => (rs, none)
      | some r =>
        let rs1 := listUpdateAt rs i (setScore item r)
        match rankApply rs1 rest with
        | (rs2, none) => (rs2, none)
        | (rs2, some idxs) => (rs2, some (i :: idxs))

/-- rank_restaurants_node from agent_nodes.py.  rankOutput is the parsed
top_3 array of the ranking collaborator (Except.error: JSON/shape
failure).  Faithful to the source's try/except: any item that cannot be
matched to a candidate id, or a matched list shorter than 3 (the
post-assignment top_3[0]/top_3[2] accesses raise IndexError inside the
try), lands in the fallback that takes the first three candidates of the
(already partially score-mutated) list.  The success thought is appended
before the length-3 check fails, so it survives for 1- and 2-entry
outputs but not for empty ones.  Returns none when reservation_params or
search_results is absent (an uncaught AttributeError in Python). -/
def rank_restaurants_node (rankOutput : Except String (List RankItem))
    (state : AgentState) : Option AgentState :=
  match state.reservation_params, state.search_results with
  | some _, some sr =>
    let restaurants := sr.restaurants
    some (match rankOutput with
      | Except.error _ =>
          { state with
              top_3_restaurants := some (restaurants.take 3)
              current_step := "present_options" }
      | Except.ok items =>
          match rankApply restaurants items with
          | (rs2, none) =>
              { state with
                  search_results := some { sr with restaurants := rs2 }
                  top_3_restaurants := some (rs2.take 3)
                  current_step := "present_options" }
          | (rs2, some idxs) =>
              let top3 := idxs.filterMap (fun i => listNth rs2 i)
              let bestName := ((top3.head?).map (fun r => r.name)).getD ""
              let thought := s!"THOUGHT: Generado TOP 3. Mejor opción: {bestName}"
              if 3 ≤ top3.length then
                { state with
                    search_results := some { sr with restaurants := rs2 }
                    top_3_restaurants := some top3
                    current_step := "present_options"
                    agent_thoughts := state.agent_thoughts ++ [thought] }
              else if top3.length = 0 then
                { state with
                    search_results := some { sr with restaurants := rs2 }
                    top_3_restaurants := some (rs2.take 3)
                    current_step := "present_options" }
              else
                { state with
                    search_results := some { sr with restaurants := rs2 }
                    top_3_restaurants := some (rs2.take 3)
                    current_step := "present_options"
                    agent_thoughts := state.agent_thoughts ++ [thought] })
  | _, _ => none

/-- format_top_3_for_user from agent_prompts.py (block per candidate,
joined by blank lines). -/
def format_top_3_for_user (top_3 : List RestaurantCandidate) : String :=
  if top_3.isEmpty then "No se encontraron restaurantes."
  else
    let blocks := (top_3.enumFrom 1).map (fun p =>
      let i := p.1
      let r := p.2
      let nm := r.name
      let addr := r.address
      let reasoning := r.score_reasoning.getD ""
      s!"{i}. **{nm}**\n   📍 {addr}\n   💡 {reasoning}")
    String.intercalate "\n\n" blocks

/-- present_options_node from agent_nodes.py; returns none when
top_3_restaurants is absent (Python would raise while formatting). -/
def present_options_node (state : AgentState) : Option AgentState :=
  match state.top_3_restaurants with
  | none => none
  | some top_3 =>
    let formatted := format_top_3_for_user top_3
    let message := s!"¡Perfecto! He encontrado estos restaurantes que podrían interesarte:\n\n{formatted}\n\n¿Cuál prefieres? (responde con el número 1, 2 o 3)"
    some { state with
        messages := state.messages ++ [⟨"assistant", message⟩]
        needs_user_input := true
        current_step := "waiting_selection"
        agent_actions := state.agent_actions ++
          ["ACTION: Presentar TOP 3 y esperar selección del usuario"] }

/-- book_restaurant_node from agent_nodes.py.  providerResult is what
the booking provider's make_reservation call would produce (Except.error
for a raised exception).  The Bool part of the result records whether
that call was actually reached.  Returns none when selected_restaurant
or reservation_params is absent (uncaught AttributeError). -/
def book_restaurant_node (providerResult : Except String BookingResult)
    (state : AgentState) : Option (AgentState × Bool) :=
  match state.selected_restaurant, state.reservation_params with
  | some restaurant, some _ =>
    some (
      if !restaurant.has_api_booking then
        let nm := restaurant.name
        ({ state with
            booking_status := some "api_failed"
            current_step := "fallback_voice"
            agent_thoughts := state.agent_thoughts ++
              [s!"THOUGHT: {nm} no tiene API. Debo intentar por llamada telefónica."] },
         false)
      else
        match providerResult with
        | Except.ok result =>
          if result.success then
            let bid := result.booking_id
            ({ state with
                booking_status := some "api_success"
                booking_confirmation :=
                  some (BookingConfirmation.apiDetails result.confirmation_details)
                current_step := "finalize"
                agent_thoughts := state.agent_thoughts ++
                  [s!"OBSERVATION: Reserva exitosa por API. ID: {bid}"] },
             true)
          else
            let err := result.error
            ({ state with
                booking_status := some "api_failed"
                current_step := "fallback_voice"
                agent_thoughts := state.agent_thoughts ++
                  [s!"OBSERVATION: API falló. Error: {err}. Intentaré por voz."] },
             true)
        | Except.error _ =>
          ({ state with
              booking_status := some "api_failed"
              current_step := "fallback_voice" },
           true))
  | _, _ => none

/-- FALLBACK_MESSAGE from agent_prompts.py. -/
def FALLBACK_MESSAGE : String :=
  "La reserva por API no está disponible en este restaurante. \nVoy a llamar directamente para confirmar tu reserva. \nDame un momento... 📞"

/-- fallback_voice_node from agent_nodes.py.  voiceResult is the result
of the voice provider call (Except.error for a raised exception, which
skips the transcript write and the observation append). -/
def fallback_voice_node (voiceResult : Except String VoiceCallResult)
    (state : AgentState) : Option AgentState :=
  match state.selected_restaurant, state.reservation_params with
  | some restaurant, some params =>
    let state1 := { state with
        messages := state.messages ++ [Message.mk "assistant" FALLBACK_MESSAGE] }
    some (match voiceResult with
      | Except.ok result =>
        let state2 := { state1 with voice_call_transcript := some result.transcript }
        let state3 :=
          if result.success && result.confirmation then
            { state2 with
                booking_status := some "voice_success"
                booking_confirmation := some (BookingConfirmation.voiceConf
                  restaurant.name params.date params.time params.num_people
                  restaurant.phone result.transcript)
                current_step := "finalize" }
          else
            { state2 with
                booking_status := some "voice_failed"
                error := some result.message
                current_step := "error" }
        let msg := result.message
        { state3 with
            agent_thoughts := state3.agent_thoughts ++
              [s!"OBSERVATION: Llamada completada. Resultado: {msg}"] }
      | Except.error e =>
        { state1 with
            booking_status := some "voice_failed"
            error := some e
            current_step := "error" })
  | _, _ => none

/-- Loop body of run_agent_until_completion: rem iterations remain, i is
the Python loop index written into iteration_count before each graph
invocation. -/
def runLoop (invoke : AgentState → AgentState) : Nat → Nat → AgentState → AgentState
  | 0, _, state => state
  | rem + 1, i, state =>
    let state1 := invoke { state with iteration_count := i }
    if ["completed", "waiting_user", "waiting_selection"].contains state1.current_step then
      state1
    else if pyTruthyStr state1.error then
      state1
    else
      runLoop invoke rem (i + 1) state1

/-- run_agent_until_completion from agent_graph.py, with the compiled
graph abstracted as the invoke function and max_iterations explicit (its
Python default is 10). -/
def run_agent_until_completion (invoke : AgentState → AgentState)
    (max_iterations : Nat) (state : AgentState) : AgentState :=
  runLoop invoke max_iterations 0 state

/-- resume_agent_after_user_input from agent_graph.py.  invoke abstracts
the compiled graph; extractOutput and bookResult stand for the
collaborator calls made on the respective paths.  Returns none where the
Python code would let an exception escape (IndexError from the selection
parser, or missing fields read by the invoked nodes). -/
def resume_agent_after_user_input (invoke : AgentState → AgentState)
    (extractOutput : Except String ReservationParams)
    (bookResult : Except String BookingResult)
    (state : AgentState) (user_message : String) : Option AgentState :=
  let state0 := { state with
      messages := state.messages ++ [⟨"user", user_message⟩]
      needs_user_input := false }
  if state0.current_step == "waiting_user" then
    let state1 := { state0 with current_step := "extract_parameters" }
    let state2 := extract_parameters_node extractOutput state1
    let state3 := check_completeness_node state2
    if state3.current_step == "search" then
      some (run_agent_until_completion invoke 10 state3)
    else
      some state3
  else if state0.current_step == "waiting_selection" then
    match state0.top_3_restaurants with
    | none => none
    | some top3 =>
      match parse_restaurant_selection user_message top3 with
      | Except.error _ => none
      | Except.ok (some selection) =>
          let s1 := { state0 with
              selected_restaurant := some selection
              current_step := "book" }
          match book_restaurant_node bookResult s1 with
          | none => none
          | some (s2, _) =>
            if s2.current_step == "finalize" || s2.current_step == "fallback_voice" then
              some (run_agent_until_completion invoke 10 s2)
            else
              some s2
      | Except.ok none =>
          some { state0 with
              messages := state0.messages ++
                [⟨"assistant", "No he entendido tu selección. Por favor, responde con 1, 2 o 3."⟩]
              current_step := "waiting_selection" }
  else
    some state0

/-- Specification-side view of the completeness gate: the conjunction of
the code's truthiness tests on the five critical fields.  Stated apart
from check_completeness_node so that the gate's decision can be compared
against it. -/
def paramsComplete (p : ReservationParams) : Bool :=
  pyTruthyStr p.query && pyTruthyStr p.location && pyTruthyStr p.date &&
  pyTruthyStr p.time && pyTruthyNat p.num_people

/-- Concrete inputs used by witnesses and counterexamples. -/
def fullParams : ReservationParams :=
  { query := some "pizzeria", location := some "Madrid",
    date := some "2026-01-01", time := some "21:00", num_people := some 4 }

/-- Parameters with an empty-string query: all five critical fields are
non-null, yet the code's truthiness test treats query as missing. -/
def emptyQueryParams : ReservationParams := { fullParams with query := some "" }

/-- Candidate records for concrete scenarios. -/
def candA : RestaurantCandidate :=
  { place_id := "p1", name := "Trattoria Roma", address := "Calle 1" }

/-- Second concrete candidate. -/
def candB : RestaurantCandidate :=
  { place_id := "p2", name := "Pizza Uno", address := "Calle 2" }

/-- Third concrete candidate. -/
def candC : RestaurantCandidate :=
  { place_id := "p3", name := "Casa Lola", address := "Calle 3" }

/-- Fourth concrete candidate. -/
def candD : RestaurantCandidate :=
  { place_id := "p4", name := "El Rincón", address := "Calle 4" }

/-- Starting state shared by the concrete scenarios. -/
def baseState : AgentState := create_initial_state "hola"

/-- State whose parameters are complete in the code's sense. -/
def fullParamsState : AgentState := { baseState with reservation_params := some fullParams }

/-- State whose query is the empty string (non-null but falsy). -/
def emptyQueryState : AgentState :=
  { baseState with reservation_params := some emptyQueryParams }

/-- Search results over the four concrete candidates. -/
def srFour : SearchResults := { restaurants := [candA, candB, candC, candD], total_found := 4 }

/-- State ready for the ranking step. -/
def rankInputState : AgentState := { fullParamsState with search_results := some srFour }

/-- Ranking output with four items, all matching known candidate ids. -/
def rankItem1 : RankItem := ⟨"p2", 9, "razón"⟩

/-- Second ranking item. -/
def rankItem2 : RankItem := ⟨"p1", 8, "razón"⟩

/-- Third ranking item. -/
def rankItem3 : RankItem := ⟨"p3", 7, "razón"⟩

/-- Fourth ranking item. -/
def rankItem4 : RankItem := ⟨"p4", 6, "razón"⟩

/-- Four-entry collaborator ranking output. -/
def rankItems4 : List RankItem := [rankItem1, rankItem2, rankItem3, rankItem4]

/-- Availability oracle whose check throws for candidate p2 only. -/
def availOracle : RestaurantCandidate → Except String AvailabilityInfo := fun r =>
  if r.place_id == "p2" then Except.error "timeout"
  else Except.ok { has_api_booking := true, available := some true, available_times := none }

/-- State ready for the availability step over three candidates. -/
def availInputState : AgentState :=
  { fullParamsState with
      search_results := some { restaurants := [candA, candB, candC], total_found := 3 } }

/-- State suspended at the selection point with a single shortlisted
candidate. -/
def waitingSelectionState : AgentState :=
  { fullParamsState with
      current_step := "waiting_selection"
      needs_user_input := true
      top_3_restaurants := some [candA] }

/-- State suspended at the missing-info point with only the query known. -/
def waitingInfoState : AgentState :=
  { baseState with
      current_step := "waiting_user"
      needs_user_input := true
      reservation_params := some { query := some "pizzeria" } }

/-- Re-extraction output that is still missing date, time and party size. -/
def partialOutput : ReservationParams := { query := some "pizzeria", location := some "Madrid" }

/-- Extraction output that carries a location but no query. -/
def locationOnlyOutput : ReservationParams := { location := some "Madrid" }

/-- State with a prior non-null query parameter. -/
def priorParamsState : AgentState :=
  { baseState with reservation_params := some { query := some "pizzeria" } }

/-- Router that always sends the state back to the same step and never
sets an error: the pathological router of the loop-guard scenario. -/
def pathologicalRouter : AgentState → AgentState := fun s =>
  { s with current_step := "extract_parameters" }

/-- State whose iteration counter is already past the ceiling. -/
def highCountState : AgentState := { baseState with iteration_count := 21 }

/-- State about to book a candidate that has no booking channel. -/
def noChannelState : AgentState :=
  { baseState with
      selected_restaurant := some candA
      reservation_params := some fullParams }

/-- A provider result (never reached in the short-circuit scenario). -/
def someBookingResult : BookingResult :=
  { success := true, confirmation_details := "ok", booking_id := "B1", error := "" }

/-- State entering the voice fallback. -/
def bookedState : AgentState :=
  { baseState with
      selected_restaurant := some candA
      reservation_params := some fullParams
      booking_status := some "api_failed"
      current_step := "fallback_voice" }

/-- Voice result: success and confirmed. -/
def voiceOk : VoiceCallResult :=
  { success := true, confirmation := true, transcript := "ok", message := "confirmada" }

/-- State with the ask-user flag set, as produced by the completeness
gate right before ask_user runs. -/
def askReadyState : AgentState :=
  { baseState with current_step := "ask_user", needs_user_input := true }

/-- Shortlist-carrying state fed to present_options. -/
def beforePresentState : AgentState :=
  { fullParamsState with top_3_restaurants := some [candA, candB] }

/-- Shortlist obtained when the four-item ranking output fully matches:
each candidate object carries the score assigned to it. -/
def rankedShortlist : List RestaurantCandidate :=
  [setScore rankItem1 candB, setScore rankItem2 candA,
   setScore rankItem3 candC, setScore rankItem4 candD]

/-! Helper lemmas. -/

/-- Truthiness implies presence for optional strings. -/
theorem pyTruthyStr_isSome {o : Option String} (h : pyTruthyStr o = true) :
    o.isSome = true := by
  cases o <;> simp [pyTruthyStr] at h ⊢

/-- The raw Boolean gate computed by check_completeness_node coincides
with the conjunction of the five truthiness tests. -/
theorem completeness_condition (s : AgentState) (p : ReservationParams)
    (h : s.reservation_params = some p) :
    (is_state_complete_for_search s && (get_missing_critical_params s).isEmpty)
      = paramsComplete p := by
  simp only [is_state_complete_for_search, get_missing_critical_params, paramsComplete, h]
  cases h1 : pyTruthyStr p.query <;> cases h2 : pyTruthyStr p.location <;>
    cases h3 : pyTruthyStr p.date <;> cases h4 : pyTruthyStr p.time <;>
    cases h5 : pyTruthyNat p.num_people <;>
    simp [List.isEmpty, pyTruthyStr_isSome, h1, h2, h3, h4, h5]

/-- Fields of the completeness gate's output in the incomplete case. -/
theorem check_incomplete_fields (t : AgentState) (p : ReservationParams)
    (h : t.reservation_params = some p) (hinc : paramsComplete p = false) :
    (check_completeness_node t).current_step = "ask_user" ∧
    (check_completeness_node t).needs_user_input = true ∧
    (check_completeness_node t).messages = t.messages ∧
    (check_completeness_node t).reservation_params = t.reservation_params := by
  simp only [check_completeness_node]
  rw [completeness_condition t p h, hinc]
  exact ⟨rfl, rfl, rfl, rfl⟩

/-- Fields of the completeness gate's output in the complete case. -/
theorem check_complete_fields (t : AgentState) (p : ReservationParams)
    (h : t.reservation_params = some p) (hc : paramsComplete p = true) :
    (check_completeness_node t).current_step = "search" ∧
    (check_completeness_node t).needs_user_input = false ∧
    (check_completeness_node t).messages = t.messages ∧
    (check_completeness_node t).reservation_params = t.reservation_params := by
  simp only [check_completeness_node]
  rw [completeness_condition t p h, hc]
  exact ⟨rfl, rfl, rfl, rfl⟩

/-- C5 counterexample: a state whose five critical fields are all
non-null (the query is the empty string) is still routed to ask_user,
refuting the all-present-implies-search reading. -/
theorem check_completeness_counterexample :
    (emptyQueryState.reservation_params.map (fun p =>
        p.query.isSome && p.location.isSome && p.date.isSome &&
        p.time.isSome && p.num_people.isSome)) = some true ∧
    (check_completeness_node emptyQueryState).current_step = "ask_user" ∧
    (check_completeness_node emptyQueryState).needs_user_input = true :=
  ⟨rfl, rfl, rfl⟩

/-- C5 (amended): check_completeness decides purely from the parameters
record, via the code's truthiness tests on the five critical fields (so
null, empty-string and zero all count as missing): all five truthy gives
phase search with the input flag cleared, anything else gives phase
ask_user with the input flag set. -/
theorem check_completeness_truthiness_gate (s : AgentState) (p : ReservationParams)
    (h : s.reservation_params = some p) :
    ((check_completeness_node s).current_step
        = if paramsComplete p then "search" else "ask_user") ∧
    ((check_completeness_node s).needs_user_input = !(paramsComplete p)) := by
  cases hc : paramsComplete p
  · have hf := check_incomplete_fields s p h hc
    simp [hf.1, hf.2.1]
  · have hf := check_complete_fields s p h hc
    simp [hf.1, hf.2.1]

/-- C5 witness: the gate evaluated on a concretely complete and on a
concretely incomplete state. -/
theorem check_completeness_truthiness_gate_witness :
    (((check_completeness_node fullParamsState).current_step
        = if paramsComplete fullParams then "search" else "ask_user") ∧
     ((check_completeness_node fullParamsState).needs_user_input
        = !(paramsComplete fullParams))) ∧
    (((check_completeness_node emptyQueryState).current_step
        = if paramsComplete emptyQueryParams then "search" else "ask_user") ∧
     ((check_completeness_node emptyQueryState).needs_user_input
        = !(paramsComplete emptyQueryParams))) :=
  ⟨check_completeness_truthiness_gate fullParamsState fullParams rfl,
   check_completeness_truthiness_gate emptyQueryState emptyQueryParams rfl⟩

/-- C2 counterexample: a prior non-null query is regressed to null by an
extraction output that does not mention the query field at all. -/
theorem extract_regresses_query_counterexample :
    (priorParamsState.reservation_params.bind (fun p => p.query)) = some "pizzeria" ∧
    locationOnlyOutput.query = none ∧
    ((extract_parameters_node (Except.ok locationOnlyOutput)
        priorParamsState).reservation_params.bind (fun p => p.query)) = none :=
  ⟨rfl, rfl, rfl⟩

/-- C2 (amended): extract_parameters adopts the collaborator's
structured output wholesale -- the resulting parameters equal the output
record regardless of the prior value, so a previously known field
survives only if the output re-supplies it.  The additive merge the spec
describes is delegated to the collaborator prompt, not performed by the
step. -/
theorem extract_replaces_params_wholesale (llmOutput : ReservationParams)
    (s : AgentState) :
    (extract_parameters_node (Except.ok llmOutput) s).reservation_params
      = some llmOutput := rfl

/-- C9: the selection parser raises on out-of-range ordinals instead of
returning no selection, and returns no selection only when the message
matches neither an ordinal word nor a shortlisted candidate name. -/
theorem parse_selection_raises_out_of_range :
    (∀ top_3 : List RestaurantCandidate, top_3.length < 3 →
       parse_restaurant_selection "3" top_3 = Except.error "IndexError") ∧
    (∀ top_3 : List RestaurantCandidate, top_3.length < 2 →
       parse_restaurant_selection "2" top_3 = Except.error "IndexError") ∧
    (∀ (message : String) (top_3 : List RestaurantCandidate),
       parse_restaurant_selection message top_3 = Except.ok none →
       ["1", "primero", "primer", "uno"].contains (pyLowerStrip message) = false ∧
       ["2", "segundo", "dos"].contains (pyLowerStrip message) = false ∧
       ["3", "tercero", "tres"].contains (pyLowerStrip message) = false ∧
       ∀ r ∈ top_3, strContains (pyLowerStrip message) (pyLower r.name) = false) := by
  refine ⟨?_, ?_, ?_⟩
  · intro t3 h
    rcases t3 with _ | ⟨a, _ | ⟨b, _ | ⟨c, t⟩⟩⟩
    · rfl
    · rfl
    · rfl
    · exfalso; simp [List.length_cons] at h; omega
  · intro t3 h
    rcases t3 with _ | ⟨a, t⟩
    · rfl
    · rcases t with _ | ⟨b, t⟩
      · rfl
      · exfalso; simp [List.length_cons] at h; omega
  · intro msg t3 h
    unfold parse_restaurant_selection at h
    by_cases c1 : ["1", "primero", "primer", "uno"].contains (pyLowerStrip msg) = true
    · rw [if_pos c1] at h
      exfalso
      cases hg : t3.get? 0 <;> rw [hg] at h <;> simp at h
    · rw [if_neg c1] at h
      by_cases c2 : ["2", "segundo", "dos"].contains (pyLowerStrip msg) = true
      · rw [if_pos c2] at h
        exfalso
        cases hg : t3.get? 1 <;> rw [hg] at h <;> simp at h
      · rw [if_neg c2] at h
        by_cases c3 : ["3", "tercero", "tres"].contains (pyLowerStrip msg) = true
        · rw [if_pos c3] at h
          exfalso
          cases hg : t3.get? 2 <;> rw [hg] at h <;> simp at h
        · rw [if_neg c3] at h
          simp only [Except.ok.injEq] at h
          refine ⟨by simpa using c1, by simpa using c2, by simpa using c3, ?_⟩
          intro r hr
          have := List.find?_eq_none.mp h r hr
          simpa using this

/-- C9 witness: the parser evaluated on concrete out-of-range ordinals
and on a message matching nothing. -/
theorem parse_selection_raises_witness :
    parse_restaurant_selection "3" [candA] = Except.error "IndexError" ∧
    parse_restaurant_selection "2" [] = Except.error "IndexError" ∧
    strContains (pyLowerStrip "hola") (pyLower candA.name) = false :=
  ⟨parse_selection_raises_out_of_range.1 [candA] (by decide),
   parse_selection_raises_out_of_range.2.1 [] (by decide),
   (parse_selection_raises_out_of_range.2.2 "hola" [candA] rfl).2.2.2 candA
     (by simp)⟩

/-- Shape of resume on a state suspended at waiting_user: the user
message is appended, the flag cleared, parameters re-extracted and the
completeness gate re-run; the engine loop resumes only when the gate
routes to search. -/
theorem resume_waiting_user_eq (invoke : AgentState → AgentState)
    (extractOutput : Except String ReservationParams)
    (bookResult : Except String BookingResult)
    (s : AgentState) (msg : String) (hstep : s.current_step = "waiting_user") :
    resume_agent_after_user_input invoke extractOutput bookResult s msg
      = (if (check_completeness_node (extract_parameters_node extractOutput
              { s with messages := s.messages ++ [Message.mk "user" msg],
                       needs_user_input := false,
                       current_step := "extract_parameters" })).current_step == "search"
         then some (run_agent_until_completion invoke 10
            (check_completeness_node (extract_parameters_node extractOutput
              { s with messages := s.messages ++ [Message.mk "user" msg],
                       needs_user_input := false,
                       current_step := "extract_parameters" })))
         else some (check_completeness_node (extract_parameters_node extractOutput
              { s with messages := s.messages ++ [Message.mk "user" msg],
                       needs_user_input := false,
                       current_step := "extract_parameters" }))) := by
  obtain ⟨m, cs, ic, nu, ui, rp, sr, t3, sel, bs, bc, vct, er, th, ac, ob⟩ := s
  change cs = "waiting_user" at hstep
  subst hstep
  rfl

/-- C10: resuming from waiting_user when re-extraction still leaves a
critical field missing hands back phase ask_user (not a waiting marker)
with needs_user_input true, and appends only the user's message -- no
new assistant question -- before returning to the caller. -/
theorem resume_still_incomplete_returns_ask_user
    (invoke : AgentState → AgentState) (bookResult : Except String BookingResult)
    (s : AgentState) (p : ReservationParams) (msg : String)
    (hstep : s.current_step = "waiting_user") (hinc : paramsComplete p = false) :
    (resume_agent_after_user_input invoke (Except.ok p) bookResult s msg).map
        (fun s2 => (s2.current_step, s2.needs_user_input, s2.messages))
      = some ("ask_user", true, s.messages ++ [Message.mk "user" msg]) := by
  rw [resume_waiting_user_eq invoke (Except.ok p) bookResult s msg hstep]
  have hrp : (extract_parameters_node (Except.ok p)
      { s with messages := s.messages ++ [Message.mk "user" msg],
               needs_user_input := false,
               current_step := "extract_parameters" }).reservation_params = some p := rfl
  have hf := check_incomplete_fields _ p hrp hinc
  rw [hf.1]
  simp [hf.1, hf.2.1, hf.2.2.1]
  rfl

/-- C10 witness: a concrete resume whose re-extraction is still missing
date, time and party size. -/
theorem resume_still_incomplete_witness :
    (resume_agent_after_user_input id (Except.ok partialOutput) (Except.error "e")
        waitingInfoState "en Madrid").map
        (fun s2 => (s2.current_step, s2.needs_user_input, s2.messages))
      = some ("ask_user", true,
          waitingInfoState.messages ++ [Message.mk "user" "en Madrid"]) :=
  resume_still_incomplete_returns_ask_user id (Except.error "e") waitingInfoState
    partialOutput "en Madrid" rfl (by decide)

/-- C1 counterexample: resume on a waiting_selection state with an
unparseable reply hands the caller a state whose phase is still
waiting_selection but whose needs_user_input flag is false, violating
the claimed equivalence. -/
theorem resume_breaks_waiting_flag_counterexample :
    (resume_agent_after_user_input id (Except.error "e") (Except.error "e")
        waitingSelectionState "hola").map
        (fun s2 => (s2.current_step, s2.needs_user_input))
      = some ("waiting_selection", false) := rfl

/-- C1 (amended): the equivalence holds at the suspend points the step
functions themselves produce -- ask_user yields phase waiting_user and
present_options yields phase waiting_selection, each with the input flag
true (ask_user relies on the completeness gate having set it) -- but
intermediate states (phase ask_user with the flag already true) and
resume-returned states can violate it. -/
theorem suspend_steps_set_waiting_markers :
    (∀ (question : String) (s : AgentState), s.needs_user_input = true →
       (ask_user_node question s).current_step = "waiting_user" ∧
       (ask_user_node question s).needs_user_input = true) ∧
    (∀ (s : AgentState) (t3 : List RestaurantCandidate),
       s.top_3_restaurants = some t3 →
       (present_options_node s).map (fun s2 => (s2.current_step, s2.needs_user_input))
         = some ("waiting_selection", true)) := by
  constructor
  · intro q s h
    exact ⟨rfl, h⟩
  · intro s t3 h
    unfold present_options_node
    rw [h]
    rfl

/-- C1 witness: both suspend steps evaluated on concrete states. -/
theorem suspend_steps_set_waiting_markers_witness :
    ((ask_user_node "¿Dónde buscamos?" askReadyState).current_step = "waiting_user" ∧
     (ask_user_node "¿Dónde buscamos?" askReadyState).needs_user_input = true) ∧
    (present_options_node beforePresentState).map
        (fun s2 => (s2.current_step, s2.needs_user_input))
      = some ("waiting_selection", true) :=
  ⟨suspend_steps_set_waiting_markers.1 "¿Dónde buscamos?" askReadyState rfl,
   suspend_steps_set_waiting_markers.2 beforePresentState [candA, candB] rfl⟩

/-- Error preservation of the engine loop: the loop itself never writes
a failure into the state. -/
theorem runLoop_preserves_error (invoke : AgentState → AgentState)
    (hpres : ∀ t, (invoke t).error = t.error) :
    ∀ (rem i : Nat) (s : AgentState), (runLoop invoke rem i s).error = s.error := by
  intro rem
  induction rem with
  | zero => intro i s; rfl
  | succ n ih =>
      intro i s
      have he : (invoke { s with iteration_count := i }).error = s.error := hpres _
      simp only [runLoop]
      split
      · exact he
      · split
        · exact he
        · exact (ih (i + 1) _).trans he

/-- C3 counterexample: with a router that always returns to the same
step, 25 dispatches leave the counter far past the ceiling yet the
engine hands back the looping phase with no error and no failure
message -- there is no force-transition to an error phase. -/
theorem engine_never_forces_error_counterexample :
    20 < (run_agent_until_completion pathologicalRouter 25 baseState).iteration_count ∧
    (run_agent_until_completion pathologicalRouter 25 baseState).current_step
      = "extract_parameters" ∧
    (run_agent_until_completion pathologicalRouter 25 baseState).error = none :=
  ⟨by decide, rfl, rfl⟩

/-- C3 (amended): the iteration ceiling produces no error transition.
The unwired router helper should_continue_or_end merely answers end once
iteration_count exceeds 20, and the engine loop run_agent_until_completion
stops after its max_iterations dispatches (10 by default) without ever
writing a failure itself: whenever the graph preserves the error field,
so does the whole run. -/
theorem loop_guard_amended :
    (∀ s : AgentState, 20 < s.iteration_count → should_continue_or_end s = "end") ∧
    (∀ (invoke : AgentState → AgentState) (n : Nat) (s : AgentState),
       (∀ t, (invoke t).error = t.error) →
       (run_agent_until_completion invoke n s).error = s.error) := by
  constructor
  · intro s h
    simp only [should_continue_or_end, if_pos h]
  · intro invoke n s hpres
    exact runLoop_preserves_error invoke hpres n 0 s

/-- C3 witness: the guard label on a concrete over-ceiling state and the
error field after a concrete pathological run. -/
theorem loop_guard_amended_witness :
    should_continue_or_end highCountState = "end" ∧
    (run_agent_until_completion pathologicalRouter 5 baseState).error = baseState.error :=
  ⟨loop_guard_amended.1 highCountState (by decide),
   loop_guard_amended.2 pathologicalRouter 5 baseState (fun t => rfl)⟩

/-- C4: when the selected candidate has no booking channel,
book_restaurant short-circuits -- bookingOutcome becomes api_failed, the
step and the router both route to fallback_voice, and the booking
provider is never invoked (the Bool component is false), whatever the
provider would have answered. -/
theorem book_short_circuits_without_channel (providerResult : Except String BookingResult)
    (s : AgentState) (r : RestaurantCandidate) (p : ReservationParams)
    (hr : s.selected_restaurant = some r) (hp : s.reservation_params = some p)
    (hflag : r.has_api_booking = false) :
    (book_restaurant_node providerResult s).map
        (fun pr => (pr.1.booking_status, pr.1.current_step, route_after_booking pr.1, pr.2))
      = some (some "api_failed", "fallback_voice", "fallback_voice", false) := by
  have e1 : ((some "api_failed" : Option String) == some "voice_failed") = false := by decide
  have e2 : ((some "api_failed" : Option String) == some "api_success") = false := by decide
  have e3 : ((some "api_failed" : Option String) == some "api_failed") = true := by decide
  unfold book_restaurant_node
  rw [hr, hp]
  simp [hflag, route_after_booking, e1, e2, e3]

/-- C4 witness: the short-circuit on a concrete channel-less candidate
with a concrete (unread) provider result. -/
theorem book_short_circuits_witness :
    (book_restaurant_node (Except.ok someBookingResult) noChannelState).map
        (fun pr => (pr.1.booking_status, pr.1.current_step, route_after_booking pr.1, pr.2))
      = some (some "api_failed", "fallback_voice", "fallback_voice", false) :=
  book_short_circuits_without_channel (Except.ok someBookingResult) noChannelState
    candA fullParams rfl rfl rfl

/-- C6: fallback_voice routes to finalize exactly on a success-and-
confirmed provider result, in which case bookingOutcome is voice_success
and the confirmation is populated through the voice channel; any other
result, including a thrown provider error, yields voice_failed, a
populated failure field and the error route. -/
theorem fallback_voice_outcomes (s : AgentState) (r : RestaurantCandidate)
    (p : ReservationParams)
    (hr : s.selected_restaurant = some r) (hp : s.reservation_params = some p) :
    (∀ result : VoiceCallResult, (result.success && result.confirmation) = true →
      (fallback_voice_node (Except.ok result) s).map
          (fun s2 => (s2.booking_status, s2.current_step, s2.booking_confirmation,
            route_after_voice_fallback s2))
        = some (some "voice_success", "finalize",
            some (BookingConfirmation.voiceConf r.name p.date p.time p.num_people
              r.phone result.transcript), "finalize")) ∧
    (∀ result : VoiceCallResult, (result.success && result.confirmation) = false →
      (fallback_voice_node (Except.ok result) s).map
          (fun s2 => (s2.booking_status, s2.current_step, s2.error,
            route_after_voice_fallback s2))
        = some (some "voice_failed", "error", some result.message, "error")) ∧
    (∀ e : String,
      (fallback_voice_node (Except.error e) s).map
          (fun s2 => (s2.booking_status, s2.current_step, s2.error,
            route_after_voice_fallback s2))
        = some (some "voice_failed", "error", some e, "error")) := by
  have e1 : ((some "voice_success" : Option String) == some "voice_success") = true := by
    decide
  have e2 : ((some "voice_failed" : Option String) == some "voice_success") = false := by
    decide
  refine ⟨?_, ?_, ?_⟩
  · intro result hres
    unfold fallback_voice_node
    rw [hr, hp]
    simp [hres, route_after_voice_fallback, e1]
  · intro result hres
    unfold fallback_voice_node
    rw [hr, hp]
    simp [hres, route_after_voice_fallback, e2]
  · intro e
    unfold fallback_voice_node
    rw [hr, hp]
    simp [route_after_voice_fallback, e2]

/-- C6 witness: the voice fallback on a concrete confirmed result and a
concrete thrown error. -/
theorem fallback_voice_outcomes_witness :
    ((fallback_voice_node (Except.ok voiceOk) bookedState).map
        (fun s2 => (s2.booking_status, s2.current_step, s2.booking_confirmation,
          route_after_voice_fallback s2))
      = some (some "voice_success", "finalize",
          some (BookingConfirmation.voiceConf candA.name fullParams.date fullParams.time
            fullParams.num_people candA.phone voiceOk.transcript), "finalize")) ∧
    ((fallback_voice_node (Except.error "net") bookedState).map
        (fun s2 => (s2.booking_status, s2.current_step, s2.error,
          route_after_voice_fallback s2))
      = some (some "voice_failed", "error", some "net", "error")) := by
  have h := fallback_voice_outcomes bookedState candA fullParams rfl rfl
  exact ⟨h.1 voiceOk rfl, h.2.2 "net"⟩

/-- Positional lookup commutes with map. -/
theorem listNth_map {α β : Type} (f : α → β) :
    ∀ (l : List α) (i : Nat), listNth (l.map f) i = (listNth l i).map f := by
  intro l
  induction l with
  | nil => intro i; cases i <;> rfl
  | cons x xs ih =>
      intro i
      cases i with
      | zero => rfl
      | succ n => simpa using ih n

/-- C7: a per-candidate availability failure does not abort the step --
the candidate list keeps its length, the failed candidate stays in place
marked channel-less with unknown availability, every other candidate
still receives its provider update, and the step routes to rank. -/
theorem availability_partial_failure_tolerance
    (avail : RestaurantCandidate → Except String AvailabilityInfo)
    (s : AgentState) (sr : SearchResults) (hs : s.search_results = some sr) :
    (check_availability_node avail s).current_step = "rank" ∧
    ((check_availability_node avail s).search_results.map
        (fun sr2 => sr2.restaurants.length)) = some sr.restaurants.length ∧
    (∀ (i : Nat) (r : RestaurantCandidate) (e : String),
       listNth sr.restaurants i = some r → avail r = Except.error e →
       ((check_availability_node avail s).search_results.map
           (fun sr2 => listNth sr2.restaurants i))
         = some (some { r with has_api_booking := false, available := none })) ∧
    (∀ (i : Nat) (r : RestaurantCandidate) (a : AvailabilityInfo),
       listNth sr.restaurants i = some r → avail r = Except.ok a →
       ((check_availability_node avail s).search_results.map
           (fun sr2 => listNth sr2.restaurants i))
         = some (some { r with has_api_booking := a.has_api_booking, available := a.available, available_times := a.available_times })) := by
  unfold check_availability_node
  rw [hs]
  refine ⟨rfl, by simp, ?_, ?_⟩
  · intro i r e hi he
    simp [listNth_map, hi, updateAvailability, he]
  · intro i r a hi ha
    simp [listNth_map, hi, updateAvailability, ha]

/-- C7 witness: three candidates, the middle one's availability check
throwing; the step still routes to rank and keeps the failed candidate
in place, marked unavailable-unknown. -/
theorem availability_witness :
    (check_availability_node availOracle availInputState).current_step = "rank" ∧
    ((check_availability_node availOracle availInputState).search_results.map
        (fun sr2 => listNth sr2.restaurants 1))
      = some (some { candB with has_api_booking := false, available := none }) := by
  have h := availability_partial_failure_tolerance availOracle availInputState
      { restaurants := [candA, candB, candC], total_found := 3 } rfl
  exact ⟨h.1, h.2.2.1 1 candB "timeout" rfl rfl⟩

/-- Positional overwrite preserves length. -/
theorem listUpdateAt_length {α : Type} :
    ∀ (l : List α) (i : Nat) (y : α), (listUpdateAt l i y).length = l.length := by
  intro l
  induction l with
  | nil => intro i y; rfl
  | cons x xs ih =>
      intro i y
      cases i with
      | zero => rfl
      | succ n => simp [listUpdateAt, ih]

/-- A found index is in range. -/
theorem listFindIdx_lt_length {α : Type} (p : α → Bool) :
    ∀ (l : List α) (i : Nat), listFindIdx p l = some i → i < l.length := by
  intro l
  induction l with
  | nil => intro i h; simp [listFindIdx] at h
  | cons x xs ih =>
      intro i h
      simp only [listFindIdx] at h
      by_cases hp : p x = true
      · rw [if_pos hp] at h
        injection h with h
        subst h
        simp
      · rw [if_neg hp] at h
        cases hfx : listFindIdx p xs with
        | none => rw [hfx] at h; simp at h
        | some j =>
            rw [hfx] at h
            simp only [Option.map_some', Option.some.injEq] at h
            subst h
            have := ih j hfx
            simp only [List.length_cons]
            omega

/-- In-range lookups succeed. -/
theorem listNth_lt_isSome {α : Type} :
    ∀ (l : List α) (i : Nat), i < l.length → (listNth l i).isSome = true := by
  intro l
  induction l with
  | nil => intro i h; simp at h
  | cons x xs ih =>
      intro i h
      cases i with
      | zero => rfl
      | succ n => exact ih n (by simpa using h)

/-- A successful lookup yields a list member. -/
theorem listNth_mem {α : Type} :
    ∀ (l : List α) (i : Nat) (x : α), listNth l i = some x → x ∈ l := by
  intro l
  induction l with
  | nil => intro i x h; simp [listNth] at h
  | cons y ys ih =>
      intro i x h
      cases i with
      | zero =>
          simp only [listNth, Option.some.injEq] at h
          subst h
          exact List.mem_cons_self y ys
      | succ n => exact List.mem_cons_of_mem y (ih n x h)

/-- Lookup at the overwritten position. -/
theorem listNth_updateAt_self {α : Type} :
    ∀ (l : List α) (i : Nat) (y : α), i < l.length →
      listNth (listUpdateAt l i y) i = some y := by
  intro l
  induction l with
  | nil => intro i y h; simp at h
  | cons x xs ih =>
      intro i y h
      cases i with
      | zero => rfl
      | succ n => exact ih n y (by simpa using h)

/-- Any lookup in an overwritten list is either unchanged or sees the
overwritten value. -/
theorem listNth_updateAt_cases {α : Type} :
    ∀ (l : List α) (i j : Nat) (y : α),
      listNth (listUpdateAt l i y) j = listNth l j ∨
      listNth (listUpdateAt l i y) j = some y := by
  intro l
  induction l with
  | nil => intro i j y; left; rfl
  | cons x xs ih =>
      intro i j y
      cases i with
      | zero =>
          cases j with
          | zero => right; rfl
          | succ m => left; rfl
      | succ n =>
          cases j with
          | zero => left; rfl
          | succ m => exact ih n m y

/-- Overwriting a position with a value that agrees under f leaves the
f-image of the list unchanged. -/
theorem listUpdateAt_map_eq {α β : Type} (f : α → β) :
    ∀ (l : List α) (i : Nat) (r y : α), listNth l i = some r → f y = f r →
      (listUpdateAt l i y).map f = l.map f := by
  intro l
  induction l with
  | nil => intro i r y h hf; rfl
  | cons x xs ih =>
      intro i r y h hf
      cases i with
      | zero =>
          simp only [listNth, Option.some.injEq] at h
          subst h
          simp [listUpdateAt, hf]
      | succ n =>
          simp only [listNth] at h
          simp [listUpdateAt, ih n r y h hf]

/-- Structure of a fully matched ranking pass: candidate ids are
untouched, one index is recorded per item, score presence is never
destroyed, and each recorded index holds a scored candidate. -/
theorem rankApply_some_spec :
    ∀ (items : List RankItem) (rs rs2 : List RestaurantCandidate) (idxs : List Nat),
      rankApply rs items = (rs2, some idxs) →
      rs2.map (fun r => r.place_id) = rs.map (fun r => r.place_id) ∧
      idxs.length = items.length ∧
      (∀ (j : Nat) (w : RestaurantCandidate), listNth rs j = some w →
         w.agent_score.isSome = true →
         ∃ z, listNth rs2 j = some z ∧ z.agent_score.isSome = true) ∧
      (∀ i ∈ idxs, ∃ z, listNth rs2 i = some z ∧ z.agent_score.isSome = true) := by
  intro items
  induction items with
  | nil =>
      intro rs rs2 idxs h
      simp only [rankApply, Prod.mk.injEq, Option.some.injEq] at h
      obtain ⟨h1, h2⟩ := h
      subst h1
      subst h2
      exact ⟨rfl, rfl, fun j w hj hw => ⟨w, hj, hw⟩, by simp⟩
  | cons item rest ih =>
      intro rs rs2 idxs h
      simp only [rankApply] at h
      cases hfind : listFindIdx (fun r => r.place_id == item.place_id) rs with
      | none => rw [hfind] at h; simp at h
      | some i =>
          simp only [hfind] at h
          cases hnth : listNth rs i with
          | none => simp only [hnth] at h; simp at h
          | some r =>
              simp only [hnth] at h
              cases hrec : rankApply (listUpdateAt rs i (setScore item r)) rest with
              | mk rs2' o =>
                  simp only [hrec] at h
                  cases o with
                  | none => simp at h
                  | some idxs' =>
                      simp only [Prod.mk.injEq, Option.some.injEq] at h
                      obtain ⟨h1, h2⟩ := h
                      subst h1
                      subst h2
                      have hlt : i < rs.length := listFindIdx_lt_length _ rs i hfind
                      obtain ⟨hpid, hlen, hmono, hidx⟩ := ih _ _ _ hrec
                      refine ⟨?_, ?_, ?_, ?_⟩
                      · rw [hpid]
                        exact listUpdateAt_map_eq _ rs i r _ hnth rfl
                      · simp [hlen]
                      · intro j w hj hw
                        rcases listNth_updateAt_cases rs i j (setScore item r) with hc | hc
                        · exact hmono j w (by rw [hc, hj]) hw
                        · exact hmono j (setScore item r) (by rw [hc]) (by simp [setScore])
                      · intro i0 hi0
                        rcases List.mem_cons.mp hi0 with h0 | h0
                        · subst h0
                          have hself : listNth (listUpdateAt rs i0 (setScore item r)) i0
                              = some (setScore item r) :=
                            listNth_updateAt_self rs i0 _ hlt
                          exact hmono i0 (setScore item r) hself (by simp [setScore])
                        · exact hidx i0 h0

/-- Even a ranking pass aborted by an unmatched item leaves the
candidate ids unchanged. -/
theorem rankApply_none_pids :
    ∀ (items : List RankItem) (rs rs2 : List RestaurantCandidate),
      rankApply rs items = (rs2, none) →
      rs2.map (fun r => r.place_id) = rs.map (fun r => r.place_id) := by
  intro items
  induction items with
  | nil => intro rs rs2 h; simp [rankApply] at h
  | cons item rest ih =>
      intro rs rs2 h
      simp only [rankApply] at h
      cases hfind : listFindIdx (fun r => r.place_id == item.place_id) rs with
      | none =>
          rw [hfind] at h
          simp only [Prod.mk.injEq] at h
          rw [← h.1]
      | some i =>
          simp only [hfind] at h
          cases hnth : listNth rs i with
          | none =>
              simp only [hnth] at h
              simp only [Prod.mk.injEq] at h
              rw [← h.1]
          | some r =>
              simp only [hnth] at h
              cases hrec : rankApply (listUpdateAt rs i (setScore item r)) rest with
              | mk rs2' o =>
                  simp only [hrec] at h
                  cases o with
                  | none =>
                      simp only [Prod.mk.injEq] at h
                      rw [← h.1, ih _ _ hrec]
                      exact listUpdateAt_map_eq _ rs i r _ hnth rfl
                  | some idxs' => simp at h

/-- Collecting in-range lookups loses no entries. -/
theorem filterMap_listNth_length (rs2 : List RestaurantCandidate) :
    ∀ idxs : List Nat, (∀ i ∈ idxs, (listNth rs2 i).isSome = true) →
      (idxs.filterMap (fun i => listNth rs2 i)).length = idxs.length := by
  intro idxs
  induction idxs with
  | nil => intro h; rfl
  | cons i is ih =>
      intro h
      have hi := h i (by simp)
      cases hn : listNth rs2 i with
      | none => rw [hn] at hi; simp at hi
      | some z =>
          simp [List.filterMap_cons, hn, ih (fun j hj => h j (by simp [hj]))]

/-- C8 counterexample: a four-item collaborator output whose ids all
match produces a shortlist of four entries -- the size-3 bound fails. -/
theorem rank_shortlist_size_counterexample :
    ((rank_restaurants_node (Except.ok rankItems4) rankInputState).map
        (fun s2 => s2.top_3_restaurants.map List.length)) = some (some 4) := rfl

/-- C8 (amended): the shortlist is always drawn from the candidates (by
id), but its other claimed properties hold only per branch: when every
output item matches a candidate id and there are at least 3 items, the
shortlist carries one scored entry per item -- its size equals the
output length, uncapped at 3; in every other branch (malformed output,
unmatched item, or fewer than 3 items) the deterministic fallback takes
the first three candidates, whose scores may be absent. -/
theorem rank_shortlist_properties (rankOutput : Except String (List RankItem))
    (s : AgentState) (sr : SearchResults) (p : ReservationParams)
    (hp : s.reservation_params = some p) (hs : s.search_results = some sr) :
    (∀ (s2 : AgentState) (t3 : List RestaurantCandidate),
       rank_restaurants_node rankOutput s = some s2 →
       s2.top_3_restaurants = some t3 →
       ∀ c ∈ t3, c.place_id ∈ sr.restaurants.map (fun r => r.place_id)) ∧
    (∀ (items : List RankItem) (rs2 : List RestaurantCandidate) (idxs : List Nat)
       (s2 : AgentState) (t3 : List RestaurantCandidate),
       rankOutput = Except.ok items →
       rankApply sr.restaurants items = (rs2, some idxs) →
       3 ≤ items.length →
       rank_restaurants_node rankOutput s = some s2 →
       s2.top_3_restaurants = some t3 →
       t3.length = items.length ∧ ∀ c ∈ t3, c.agent_score.isSome = true) ∧
    (∀ (items : List RankItem) (rs2 : List RestaurantCandidate) (idxs : List Nat)
       (s2 : AgentState) (t3 : List RestaurantCandidate),
       rankOutput = Except.ok items →
       rankApply sr.restaurants items = (rs2, some idxs) →
       items.length < 3 →
       rank_restaurants_node rankOutput s = some s2 →
       s2.top_3_restaurants = some t3 → t3.length ≤ 3) ∧
    (∀ (items : List RankItem) (rs2 : List RestaurantCandidate)
       (s2 : AgentState) (t3 : List RestaurantCandidate),
       rankOutput = Except.ok items →
       rankApply sr.restaurants items = (rs2, none) →
       rank_restaurants_node rankOutput s = some s2 →
       s2.top_3_restaurants = some t3 → t3.length ≤ 3) ∧
    (∀ (e : String) (s2 : AgentState) (t3 : List RestaurantCandidate),
       rankOutput = Except.error e →
       rank_restaurants_node rankOutput s = some s2 →
       s2.top_3_restaurants = some t3 → t3.length ≤ 3) := by
  have htake : ∀ l : List RestaurantCandidate, (l.take 3).length ≤ 3 := by
    intro l
    rw [List.length_take]
    exact Nat.min_le_left _ _
  refine ⟨?_, ?_, ?_, ?_, ?_⟩
  · intro s2 t3 heq ht3 c hc
    cases rankOutput with
    | error e =>
        unfold rank_restaurants_node at heq
        simp only [hp, hs, Option.some.injEq] at heq
        subst heq
        simp only [Option.some.injEq] at ht3
        subst ht3
        exact List.mem_map_of_mem _ (List.take_subset 3 sr.restaurants hc)
    | ok items =>
        unfold rank_restaurants_node at heq
        simp only [hp, hs, Option.some.injEq] at heq
        cases hra : rankApply sr.restaurants items with
        | mk rs2 o =>
            cases o with
            | none =>
                simp only [hra] at heq
                subst heq
                simp only [Option.some.injEq] at ht3
                subst ht3
                have hmem : c.place_id ∈ rs2.map (fun r => r.place_id) :=
                  List.mem_map_of_mem _ (List.take_subset 3 rs2 hc)
                rw [rankApply_none_pids items sr.restaurants rs2 hra] at hmem
                exact hmem
            | some idxs =>
                simp only [hra] at heq
                obtain ⟨hpid, hlen, hmono, hidx⟩ :=
                  rankApply_some_spec items sr.restaurants rs2 idxs hra
                by_cases hge : 3 ≤ (idxs.filterMap (fun i => listNth rs2 i)).length
                · rw [if_pos hge] at heq
                  subst heq
                  simp only [Option.some.injEq] at ht3
                  subst ht3
                  obtain ⟨i, hiidx, hieq⟩ := List.mem_filterMap.mp hc
                  have hmem : c.place_id ∈ rs2.map (fun r => r.place_id) :=
                    List.mem_map_of_mem _ (listNth_mem rs2 i c hieq)
                  rw [hpid] at hmem
                  exact hmem
                · rw [if_neg hge] at heq
                  by_cases hz : (idxs.filterMap (fun i => listNth rs2 i)).length = 0
                  · rw [if_pos hz] at heq
                    subst heq
                    simp only [Option.some.injEq] at ht3
                    subst ht3
                    have hmem : c.place_id ∈ rs2.map (fun r => r.place_id) :=
                      List.mem_map_of_mem _ (List.take_subset 3 rs2 hc)
                    rw [hpid] at hmem
                    exact hmem
                  · rw [if_neg hz] at heq
                    subst heq
                    simp only [Option.some.injEq] at ht3
                    subst ht3
                    have hmem : c.place_id ∈ rs2.map (fun r => r.place_id) :=
                      List.mem_map_of_mem _ (List.take_subset 3 rs2 hc)
                    rw [hpid] at hmem
                    exact hmem
  · intro items rs2 idxs s2 t3 hout hra hge3 heq ht3
    subst hout
    obtain ⟨hpid, hlen, hmono, hidx⟩ := rankApply_some_spec items sr.restaurants rs2 idxs hra
    have hops : ∀ i ∈ idxs, (listNth rs2 i).isSome = true := by
      intro i hi
      obtain ⟨z, hz, _⟩ := hidx i hi
      simp [hz]
    have hlen3 : (idxs.filterMap (fun i => listNth rs2 i)).length = items.length :=
      (filterMap_listNth_length rs2 idxs hops).trans hlen
    unfold rank_restaurants_node at heq
    simp only [hp, hs, hra, Option.some.injEq] at heq
    rw [if_pos (by rw [hlen3]; omega)] at heq
    subst heq
    simp only [Option.some.injEq] at ht3
    subst ht3
    refine ⟨hlen3, ?_⟩
    intro c hc
    obtain ⟨i, hiidx, hieq⟩ := List.mem_filterMap.mp hc
    obtain ⟨z, hz, hzs⟩ := hidx i hiidx
    rw [hz] at hieq
    injection hieq with hieq
    subst hieq
    exact hzs
  · intro items rs2 idxs s2 t3 hout hra hlt3 heq ht3
    subst hout
    obtain ⟨hpid, hlen, hmono, hidx⟩ := rankApply_some_spec items sr.restaurants rs2 idxs hra
    have hops : ∀ i ∈ idxs, (listNth rs2 i).isSome = true := by
      intro i hi
      obtain ⟨z, hz, _⟩ := hidx i hi
      simp [hz]
    have hlen3 : (idxs.filterMap (fun i => listNth rs2 i)).length = items.length :=
      (filterMap_listNth_length rs2 idxs hops).trans hlen
    unfold rank_restaurants_node at heq
    simp only [hp, hs, hra, Option.some.injEq] at heq
    rw [if_neg (by rw [hlen3]; omega)] at heq
    by_cases hz : (idxs.filterMap (fun i => listNth rs2 i)).length = 0
    · rw [if_pos hz] at heq
      subst heq
      simp only [Option.some.injEq] at ht3
      subst ht3
      exact htake rs2
    · rw [if_neg hz] at heq
      subst heq
      simp only [Option.some.injEq] at ht3
      subst ht3
      exact htake rs2
  · intro items rs2 s2 t3 hout hra heq ht3
    subst hout
    unfold rank_restaurants_node at heq
    simp only [hp, hs, hra, Option.some.injEq] at heq
    subst heq
    simp only [Option.some.injEq] at ht3
    subst ht3
    exact htake rs2
  · intro e s2 t3 hout heq ht3
    subst hout
    unfold rank_restaurants_node at heq
    simp only [hp, hs, Option.some.injEq] at heq
    subst heq
    simp only [Option.some.injEq] at ht3
    subst ht3
    exact htake sr.restaurants

/-- C8 witness: the subset property extracted from a concrete fallback
run, alongside the concrete fallback shortlist size. -/
theorem rank_shortlist_witness :
    candA.place_id ∈ srFour.restaurants.map (fun r => r.place_id) ∧
    ((rank_restaurants_node (Except.error "malformed") rankInputState).map
        (fun s2 => s2.top_3_restaurants.map List.length)) = some (some 3) := by
  have h := rank_shortlist_properties (Except.error "malformed") rankInputState
      srFour fullParams rfl rfl
  refine ⟨?_, rfl⟩
  have hname : rank_restaurants_node (Except.error "malformed") rankInputState
      = some ((rank_restaurants_node (Except.error "malformed") rankInputState).get rfl) :=
    rfl
  exact h.1 _ [candA, candB, candC] hname rfl candA (by simp)
